import Mathlib

/-!
Shallow embedding of the BLOStool link-budget engine (`src/physics.py`),
with floating-point arithmetic modelled over the reals.

The repository holds the legacy propagation module under `src/physics.py`
(unconditional knife-edge diffraction, no input validation, no radio-horizon
field in the result). Its test `verify.py` exercises a newer ITU-R P.526
variant of the module (it reads `res["d_horizon_km"]` and expects a
smooth-Earth branch) which is not present in the source tree; that variant is
modelled from the specification in the `SpecModel` namespace below.
-/

noncomputable section

/-- Input configuration: the constructor arguments of `LinkBudget.__init__`
(`src/physics.py` lines 5-22). -/
structure LinkBudget where
  freq_mhz : ℝ
  bandwidth_mhz : ℝ
  dist_km : ℝ
  tx_h_m : ℝ
  rx_h_m : ℝ
  tx_p_dbm : ℝ
  tx_g_dbi : ℝ
  tx_l_db : ℝ
  rx_g_dbi : ℝ
  rx_l_db : ℝ
  rx_nf_db : ℝ
  fade_margin_db : ℝ
  impl_loss_db : ℝ

/-- Base-10 logarithm, the embedding of `np.log10`. -/
def log10 (x : ℝ) : ℝ := Real.logb 10 x

/-- `self.c = 3e8` (`src/physics.py` line 25). -/
def c_light : ℝ := 3e8

/-- `self.k_factor = 1.33` (`src/physics.py` line 26). -/
def k_factor : ℝ := 1.33

/-- `self.earth_radius_km = 6371.0` (`src/physics.py` line 27). -/
def earth_radius_km : ℝ := 6371.0

/-- `self.eff_earth_radius_m = self.k_factor * self.earth_radius_km * 1000`
(`src/physics.py` line 28). -/
def eff_earth_radius_m : ℝ := k_factor * earth_radius_km * 1000

/-- `self.freq_hz = freq_mhz * 1e6` (`src/physics.py` line 9). -/
def freq_hz (lb : LinkBudget) : ℝ := lb.freq_mhz * 1e6

/-- `self.dist_m = dist_km * 1000` (`src/physics.py` line 12). -/
def dist_m (lb : LinkBudget) : ℝ := lb.dist_km * 1000

/-- `self.wavelength = self.c / self.freq_hz` (`src/physics.py` line 30). -/
def wavelength (lb : LinkBudget) : ℝ := c_light / freq_hz lb

/-- `calculate_fspl` (`src/physics.py` lines 32-34). -/
def calculate_fspl (lb : LinkBudget) : ℝ :=
  20 * log10 (dist_m lb) + 20 * log10 (freq_hz lb) - 147.55

/-- `calculate_fresnel_radius` (`src/physics.py` lines 36-41). -/
def calculate_fresnel_radius (lb : LinkBudget) (d1_m : ℝ) : ℝ :=
  if d1_m ≤ 0 ∨ d1_m ≥ dist_m lb then 0
  else Real.sqrt ((wavelength lb * d1_m * (dist_m lb - d1_m)) / (d1_m + (dist_m lb - d1_m)))

/-- Sample points of `np.linspace(0, self.dist_m, 1000)` (`src/physics.py`
lines 70-71): the i-th of 1000 evenly spaced points over `[0, dist_m]`. -/
def samplePoint (lb : LinkBudget) (i : ℕ) : ℝ := dist_m lb * i / 999

/-- Earth-bulge height `(d * (D - d)) / (2 * R_e_eff)` at distance `d`
(`src/physics.py` line 75). -/
def h_bulge (lb : LinkBudget) (d : ℝ) : ℝ :=
  (d * (dist_m lb - d)) / (2 * eff_earth_radius_m)

/-- Ray height `self.tx_h_m + slope * d` with
`slope = (self.rx_h_m - self.tx_h_m) / self.dist_m` (`src/physics.py`
lines 83-84). -/
def h_ray (lb : LinkBudget) (d : ℝ) : ℝ :=
  lb.tx_h_m + (lb.rx_h_m - lb.tx_h_m) / dist_m lb * d

/-- Clearance of the i-th sample: `h_ray_vec - h_bulge_vec` (`src/physics.py`
line 87). -/
def clearanceAt (lb : LinkBudget) (i : ℕ) : ℝ :=
  h_ray lb (samplePoint lb i) - h_bulge lb (samplePoint lb i)

/-- The interior sample indices, `slice(1, -1)` of the 1000 samples
(`src/physics.py` line 91): indices 1 through 998.  The `steps < 3` fallback
on lines 94-95 is dead code since `steps` is the literal 1000. -/
def interiorIdx : List ℕ := List.range' 1 998

/-- Index selected by `np.argmin` over the interior clearances
(`src/physics.py` line 100): first index attaining the minimum clearance. -/
def worstIdx (lb : LinkBudget) : ℕ :=
  (interiorIdx.argmin (clearanceAt lb)).getD 1

/-- `min_clearance` (`src/physics.py` line 101). -/
def min_clearance (lb : LinkBudget) : ℝ := clearanceAt lb (worstIdx lb)

/-- `d_obstruction` (`src/physics.py` line 102). -/
def d_obstruction (lb : LinkBudget) : ℝ := samplePoint lb (worstIdx lb)

/-- `f1` at the worst point (`src/physics.py` line 105). -/
def f1_at_obstruction (lb : LinkBudget) : ℝ :=
  calculate_fresnel_radius lb (d_obstruction lb)

/-- `v_param` (`src/physics.py` lines 107-115). -/
def v_param (lb : LinkBudget) : ℝ :=
  if f1_at_obstruction lb = 0 then -100
  else -1 * min_clearance lb * Real.sqrt 2 / f1_at_obstruction lb

/-- `loss_db`, the ITU-R P.526 single knife-edge approximation J(v)
(`src/physics.py` lines 119-122). -/
def loss_db (lb : LinkBudget) : ℝ :=
  if v_param lb > -0.7 then
    6.9 + 20 * log10 (Real.sqrt ((v_param lb - 0.1) ^ 2 + 1) + v_param lb - 0.1)
  else 0

/-- `calculate_diffraction_loss` (`src/physics.py` lines 51-125): returns
`(max(loss_db, 0.0), min_clearance, f1, d_obstruction)`. -/
def calculate_diffraction_loss (lb : LinkBudget) : ℝ × ℝ × ℝ × ℝ :=
  (max (loss_db lb) 0, min_clearance lb, f1_at_obstruction lb, d_obstruction lb)

/-- `calculate_thermal_noise` (`src/physics.py` lines 127-129). -/
def calculate_thermal_noise (lb : LinkBudget) : ℝ :=
  -174 + 10 * log10 (lb.bandwidth_mhz * 1e6) + lb.rx_nf_db

/-- `total_loss` (`src/physics.py` line 135). -/
def total_loss (lb : LinkBudget) : ℝ :=
  calculate_fspl lb + (calculate_diffraction_loss lb).1 + lb.tx_l_db + lb.rx_l_db
    + lb.impl_loss_db + lb.fade_margin_db

/-- `total_gain` (`src/physics.py` line 136). -/
def total_gain (lb : LinkBudget) : ℝ := lb.tx_g_dbi + lb.rx_g_dbi

/-- `rsl` (`src/physics.py` line 138). -/
def rsl (lb : LinkBudget) : ℝ := lb.tx_p_dbm + total_gain lb - total_loss lb

/-- `snr_db` (`src/physics.py` lines 140-141). -/
def snr_db (lb : LinkBudget) : ℝ := rsl lb - calculate_thermal_noise lb

/-- The `modulation` label assigned by the if/elif chain of `run`
(`src/physics.py` lines 164-184). -/
def modulation (lb : LinkBudget) : String :=
  if snr_db lb < 6 then "No Link"
  else if snr_db lb < 10 then "QPSK 1/2"
  else if snr_db lb < 15 then "16QAM 1/2"
  else if snr_db lb < 20 then "16QAM 3/4"
  else if snr_db lb < 25 then "64QAM 2/3"
  else if snr_db lb < 30 then "64QAM 3/4"
  else "256QAM"

/-- The `spectral_eff` value assigned by the same if/elif chain
(`src/physics.py` lines 164-184). -/
def spectral_eff (lb : LinkBudget) : ℝ :=
  if snr_db lb < 6 then 0
  else if snr_db lb < 10 then 1.0
  else if snr_db lb < 15 then 2.0
  else if snr_db lb < 20 then 3.0
  else if snr_db lb < 25 then 4.0
  else if snr_db lb < 30 then 4.5
  else 6.0

/-- `est_throughput = spectral_eff * self.bandwidth_mhz` (`src/physics.py`
line 186). -/
def est_throughput (lb : LinkBudget) : ℝ := spectral_eff lb * lb.bandwidth_mhz

/-- The dictionary returned by `run` (`src/physics.py` lines 188-201). -/
structure RunResult where
  fspl : ℝ
  diffraction_loss : ℝ
  total_loss : ℝ
  rsl : ℝ
  noise_floor : ℝ
  snr : ℝ
  min_clearance : ℝ
  f1_at_obstruction : ℝ
  d_obstruction : ℝ
  throughput_mbps : ℝ
  modulation : String
  is_los : Prop

/-- `run` (`src/physics.py` lines 131-201). -/
def run (lb : LinkBudget) : RunResult where
  fspl := calculate_fspl lb
  diffraction_loss := (calculate_diffraction_loss lb).1
  total_loss := total_loss lb
  rsl := rsl lb
  noise_floor := calculate_thermal_noise lb
  snr := snr_db lb
  min_clearance := min_clearance lb
  f1_at_obstruction := f1_at_obstruction lb
  d_obstruction := d_obstruction lb
  throughput_mbps := est_throughput lb
  modulation := modulation lb
  is_los := min_clearance lb > 0

namespace SpecModel

/-- Modelled from the spec: the radio-horizon helper
`horizon(h) = sqrt(2 × effective_earth_radius × h)` of §4.2.  The computing
module (the ITU-R P.526 variant of `physics.py` exercised by `verify.py`) is
absent from the source tree. -/
def horizon (h : ℝ) : ℝ := Real.sqrt (2 * eff_earth_radius_m * h)

/-- Modelled from the spec: total radio horizon, the sum of the two terminal
horizons (§4.2). -/
def horizonTotal (lb : LinkBudget) : ℝ := horizon lb.tx_h_m + horizon lb.rx_h_m

/-- Modelled from the spec: normalized distance
`X = D × (π / (wavelength × Re²))^(1/3)` (§4.5). -/
def Xnorm (lb : LinkBudget) : ℝ :=
  dist_m lb * (Real.pi / (wavelength lb * eff_earth_radius_m ^ 2)) ^ ((1 : ℝ) / 3)

/-- Modelled from the spec: height-normalization factor
`hf = (π² / (wavelength² × Re))^(1/3)` (§4.5). -/
def hf (lb : LinkBudget) : ℝ :=
  (Real.pi ^ 2 / (wavelength lb ^ 2 * eff_earth_radius_m)) ^ ((1 : ℝ) / 3)

/-- Modelled from the spec: normalized transmitter height `Y1 = 2 × h_tx × hf`
(§4.5). -/
def Y1 (lb : LinkBudget) : ℝ := 2 * lb.tx_h_m * hf lb

/-- Modelled from the spec: normalized receiver height `Y2 = 2 × h_rx × hf`
(§4.5). -/
def Y2 (lb : LinkBudget) : ℝ := 2 * lb.rx_h_m * hf lb

/-- Modelled from the spec: distance-attenuation term F(X) (§4.5) — the
deep-shadow formula for `X ≥ 1.6`, linearly interpolated to 0 below it. -/
def Fterm (X : ℝ) : ℝ :=
  if X ≥ 1.6 then 11 + 10 * log10 X - 17.6 * X
  else (X / 1.6) * (11 + 10 * log10 1.6 - 17.6 * 1.6)

/-- Modelled from the spec: height-gain term G(Y) (§4.5). -/
def Gterm (Y : ℝ) : ℝ :=
  if Y > 2 then 17.6 * Real.sqrt (Y - 1.1) - 5 * log10 (Y - 1.1) - 8
  else if 0 < Y then 20 * log10 (Y + 0.1 * Y ^ 3)
  else -100

/-- Modelled from the spec: smooth spherical-Earth diffraction loss
`L = −F(X) − G(Y1) − G(Y2)`, floored at 0 (§4.5). -/
def smoothEarthLoss (lb : LinkBudget) : ℝ :=
  max (-(Fterm (Xnorm lb)) - Gterm (Y1 lb) - Gterm (Y2 lb)) 0

/-- Modelled from the spec: clearance at distance d, the linear interpolation
`h_tx + (h_rx − h_tx) × d / D` minus the Earth bulge `d × (D − d) / (2 × Re)`
(§4.4). -/
def clearance (lb : LinkBudget) (d : ℝ) : ℝ :=
  lb.tx_h_m + (lb.rx_h_m - lb.tx_h_m) * d / dist_m lb
    - d * (dist_m lb - d) / (2 * eff_earth_radius_m)

/-- Modelled from the spec: the worst (minimum-clearance) interior sample,
leftmost among ties (§4.4). -/
def specWorstIdx (lb : LinkBudget) : ℕ :=
  (interiorIdx.argmin (fun i => clearance lb (samplePoint lb i))).getD 1

/-- Modelled from the spec: minimum clearance, at the worst interior sample
(§4.4). -/
def specMinClearance (lb : LinkBudget) : ℝ :=
  clearance lb (samplePoint lb (specWorstIdx lb))

/-- Modelled from the spec: first Fresnel-zone radius at the worst point
(§4.3, §4.5). -/
def specF1 (lb : LinkBudget) : ℝ :=
  calculate_fresnel_radius lb (samplePoint lb (specWorstIdx lb))

/-- Modelled from the spec: Fresnel-Kirchhoff parameter
`v = −min_clearance × sqrt(2) / F1`, a very negative value when F1 = 0
(§4.5). -/
def specV (lb : LinkBudget) : ℝ :=
  if specF1 lb = 0 then (-100 : ℝ)
  else -specMinClearance lb * Real.sqrt 2 / specF1 lb

/-- Modelled from the spec: single knife-edge loss at the worst-clearance
point, floored at 0 (§4.5). -/
def knifeEdgeLoss (lb : LinkBudget) : ℝ :=
  max (if specV lb > -0.7 then
        6.9 + 20 * log10 (Real.sqrt ((specV lb - 0.1) ^ 2 + 1) + specV lb - 0.1)
      else 0) 0

/-- Modelled from the spec: regime-selected diffraction loss (§4.5) — the
smooth-Earth branch when `D > H`, the knife-edge branch otherwise. -/
def diffractionLoss (lb : LinkBudget) : ℝ :=
  if horizonTotal lb < dist_m lb then smoothEarthLoss lb else knifeEdgeLoss lb

/-- Modelled from the spec: the error taxonomy of §7, one constructor per
offending field. -/
inductive ConfigurationError where
  | nonpositiveDistance
  | nonpositiveFrequency
  | nonpositiveBandwidth
  | negativeTxHeight
  | negativeRxHeight
deriving DecidableEq

/-- Modelled from the spec: the LinkBudgetResult of §3 for the ITU-R variant,
including the radio-horizon total distance field (`d_horizon_km` in
`verify.py`). -/
structure SpecResult where
  fspl : ℝ
  diffraction_loss : ℝ
  total_loss : ℝ
  rsl : ℝ
  noise_floor : ℝ
  snr : ℝ
  is_los : Prop
  d_horizon_km : ℝ
  modulation : String
  spectral_eff : ℝ
  throughput_mbps : ℝ

/-- Modelled from the spec: the modulation table of §4.7 as a function of
SNR. -/
def modTable (s : ℝ) : String :=
  if s < 6 then "No Link"
  else if s < 10 then "QPSK 1/2"
  else if s < 15 then "16QAM 1/2"
  else if s < 20 then "16QAM 3/4"
  else if s < 25 then "64QAM 2/3"
  else if s < 30 then "64QAM 3/4"
  else "256QAM"

/-- Modelled from the spec: the spectral-efficiency table of §4.7 as a
function of SNR. -/
def effTable (s : ℝ) : ℝ :=
  if s < 6 then 0
  else if s < 10 then 1.0
  else if s < 15 then 2.0
  else if s < 20 then 3.0
  else if s < 25 then 4.0
  else if s < 30 then 4.5
  else 6.0

/-- Modelled from the spec: total path loss of §4.6 with the regime-selected
diffraction loss. -/
def totalLoss (lb : LinkBudget) : ℝ :=
  calculate_fspl lb + diffractionLoss lb + lb.tx_l_db + lb.rx_l_db
    + lb.impl_loss_db + lb.fade_margin_db

/-- Modelled from the spec: received signal level of §4.6. -/
def rslSpec (lb : LinkBudget) : ℝ :=
  lb.tx_p_dbm + (lb.tx_g_dbi + lb.rx_g_dbi) - totalLoss lb

/-- Modelled from the spec: SNR of §4.6. -/
def snrSpec (lb : LinkBudget) : ℝ := rslSpec lb - calculate_thermal_noise lb

/-- Modelled from the spec: the complete result assembled from §4.2-§4.7. -/
def compute (lb : LinkBudget) : SpecResult where
  fspl := calculate_fspl lb
  diffraction_loss := diffractionLoss lb
  total_loss := totalLoss lb
  rsl := rslSpec lb
  noise_floor := calculate_thermal_noise lb
  snr := snrSpec lb
  is_los := clearance lb (samplePoint lb (specWorstIdx lb)) > 0
  d_horizon_km := horizonTotal lb / 1000
  modulation := modTable (snrSpec lb)
  spectral_eff := effTable (snrSpec lb)
  throughput_mbps := effTable (snrSpec lb) * lb.bandwidth_mhz

/-- Modelled from the spec: validation of §7 — a `ConfigurationError`
identifying the offending field is raised before any computation, otherwise a
complete result is produced. -/
def specRun (lb : LinkBudget) : Except ConfigurationError SpecResult :=
  if lb.dist_km ≤ 0 then .error .nonpositiveDistance
  else if lb.freq_mhz ≤ 0 then .error .nonpositiveFrequency
  else if lb.bandwidth_mhz ≤ 0 then .error .nonpositiveBandwidth
  else if lb.tx_h_m < 0 then .error .negativeTxHeight
  else if lb.rx_h_m < 0 then .error .negativeRxHeight
  else .ok (compute lb)

end SpecModel

/-! ### Helper lemmas on the interior-sample argmin -/

lemma mem_interiorIdx {i : ℕ} : i ∈ interiorIdx ↔ 1 ≤ i ∧ i ≤ 998 := by
  simp only [interiorIdx, List.mem_range']
  constructor
  · rintro ⟨j, hj, rfl⟩; omega
  · rintro ⟨h1, h2⟩; exact ⟨i - 1, by omega, by omega⟩

lemma indexOf_range' : ∀ (n s a : ℕ), a ∈ List.range' s n →
    (List.range' s n).indexOf a = a - s := by
  intro n
  induction n with
  | zero => intro s a ha; simp at ha
  | succ n ih =>
    intro s a ha
    rw [List.range'_succ] at ha ⊢
    rcases List.mem_cons.1 ha with rfl | ha2
    · simp
    · have hs : s + 1 ≤ a := by
        have := List.mem_range'.1 ha2
        omega
      have hne : s ≠ a := by omega
      rw [List.indexOf_cons_ne _ hne, ih _ _ ha2]
      omega

lemma argmin_eq_some_worstIdx (lb : LinkBudget) :
    interiorIdx.argmin (clearanceAt lb) = some (worstIdx lb) := by
  cases h : interiorIdx.argmin (clearanceAt lb) with
  | none =>
    exfalso
    have hnil : interiorIdx = [] := List.argmin_eq_none.1 h
    simp [interiorIdx] at hnil
  | some m => simp [worstIdx, h]

/-- The worst index is an interior sample realizing the minimum clearance,
leftmost among ties (the semantics of `np.argmin` over the slice). -/
lemma worstIdx_spec (lb : LinkBudget) :
    (1 ≤ worstIdx lb ∧ worstIdx lb ≤ 998) ∧
      (∀ i, 1 ≤ i → i ≤ 998 → clearanceAt lb (worstIdx lb) ≤ clearanceAt lb i) ∧
      ∀ i, 1 ≤ i → i ≤ 998 →
        clearanceAt lb i ≤ clearanceAt lb (worstIdx lb) → worstIdx lb ≤ i := by
  have h := List.argmin_eq_some_iff.1 (argmin_eq_some_worstIdx lb)
  have hmemW := mem_interiorIdx.1 h.1
  refine ⟨hmemW, fun i h1 h2 => h.2.1 i (mem_interiorIdx.2 ⟨h1, h2⟩), ?_⟩
  intro i h1 h2 hle
  have hi : i ∈ interiorIdx := mem_interiorIdx.2 ⟨h1, h2⟩
  have hidx := h.2.2 i hi hle
  simp only [interiorIdx] at hidx
  rw [indexOf_range' 998 1 _ h.1, indexOf_range' 998 1 _ hi] at hidx
  omega

/-! ### The spec-side sampler agrees with the source sampler -/

lemma spec_clearance_eq (lb : LinkBudget) :
    (fun i => SpecModel.clearance lb (samplePoint lb i)) = clearanceAt lb := by
  funext i
  simp only [SpecModel.clearance, clearanceAt, h_ray, h_bulge]
  ring

lemma specWorstIdx_eq (lb : LinkBudget) : SpecModel.specWorstIdx lb = worstIdx lb := by
  unfold SpecModel.specWorstIdx worstIdx
  rw [spec_clearance_eq]

lemma specMinClearance_eq (lb : LinkBudget) :
    SpecModel.specMinClearance lb = min_clearance lb := by
  unfold SpecModel.specMinClearance min_clearance
  rw [specWorstIdx_eq]
  exact congrFun (spec_clearance_eq lb) _

lemma specF1_eq (lb : LinkBudget) : SpecModel.specF1 lb = f1_at_obstruction lb := by
  unfold SpecModel.specF1 f1_at_obstruction d_obstruction
  rw [specWorstIdx_eq]

lemma specV_eq (lb : LinkBudget) : SpecModel.specV lb = v_param lb := by
  unfold SpecModel.specV v_param
  rw [specMinClearance_eq, specF1_eq]
  split_ifs with h
  · rfl
  · ring

/-- The spec-worded knife-edge branch coincides with the source
implementation `calculate_diffraction_loss`. -/
lemma specKnife_eq (lb : LinkBudget) :
    SpecModel.knifeEdgeLoss lb = (calculate_diffraction_loss lb).1 := by
  unfold SpecModel.knifeEdgeLoss calculate_diffraction_loss loss_db
  rw [specV_eq]

/-! ### Concrete configurations used by witnesses and counterexamples -/

/-- Test case 1 of `verify.py`: a clear 10 km link. -/
def cfgA : LinkBudget where
  freq_mhz := 2400
  bandwidth_mhz := 10
  dist_km := 10
  tx_h_m := 10
  rx_h_m := 100
  tx_p_dbm := 30
  tx_g_dbi := 0
  tx_l_db := 0
  rx_g_dbi := 0
  rx_l_db := 0
  rx_nf_db := 0
  fade_margin_db := 0
  impl_loss_db := 0

/-- A configuration with a ground-level transmitter. -/
def cfgZ : LinkBudget := { cfgA with tx_h_m := 0 }

/-- An invalid configuration (non-positive distance). -/
def cfgBad : LinkBudget := { cfgA with dist_km := 0 }

/-- A valid configuration with a negative fade margin and a widely clear path
(both terminals at 10^6 m over a 1 km link). -/
def cfgC8 : LinkBudget where
  freq_mhz := 2400
  bandwidth_mhz := 10
  dist_km := 1
  tx_h_m := 1000000
  rx_h_m := 1000000
  tx_p_dbm := 0
  tx_g_dbi := 0
  tx_l_db := 0
  rx_g_dbi := 0
  rx_l_db := 0
  rx_nf_db := 0
  fade_margin_db := -1
  impl_loss_db := 0

/-! ### Claim theorems -/

/-- C6: for every valid configuration, total loss is FSPL plus diffraction
loss plus both cable losses, implementation loss and fade margin; FSPL is
`20·log10(distance_m) + 20·log10(frequency_Hz) − 147.55`; RSL is transmit
power plus both gains minus total loss; the noise floor is
`−174 + 10·log10(bandwidth_Hz) + noise_figure`; and SNR is RSL minus the
noise floor. -/
theorem c6_link_budget_aggregation (lb : LinkBudget) (hd : 0 < lb.dist_km) :
    (run lb).total_loss = (run lb).fspl + (run lb).diffraction_loss + lb.tx_l_db
        + lb.rx_l_db + lb.impl_loss_db + lb.fade_margin_db
    ∧ (run lb).fspl = 20 * log10 (lb.dist_km * 1000) + 20 * log10 (lb.freq_mhz * 1e6) - 147.55
    ∧ (run lb).rsl = lb.tx_p_dbm + (lb.tx_g_dbi + lb.rx_g_dbi) - (run lb).total_loss
    ∧ (run lb).noise_floor = -174 + 10 * log10 (lb.bandwidth_mhz * 1e6) + lb.rx_nf_db
    ∧ (run lb).snr = (run lb).rsl - (run lb).noise_floor :=
  ⟨rfl, rfl, rfl, rfl, rfl⟩

/-- Witness for C6 at the concrete configuration `cfgA`. -/
theorem c6_witness :
    (0 : ℝ) < cfgA.dist_km ∧
      (run cfgA).snr = (run cfgA).rsl - (run cfgA).noise_floor :=
  ⟨by norm_num [cfgA], (c6_link_budget_aggregation cfgA (by norm_num [cfgA])).2.2.2.2⟩

/-- C9 counterexample: the effective Earth radius of the code is
`1.33 × 6371 km`, which differs from `(4/3) × 6371000 m`. -/
theorem c9_counterexample : eff_earth_radius_m ≠ 4 / 3 * 6371000 := by
  norm_num [eff_earth_radius_m, k_factor, earth_radius_km]

/-- C9 (amended): the effective Earth radius used in all bulge and horizon
geometry is the fixed k-factor 1.33 times the nominal 6371 km Earth radius,
i.e. exactly 8 473 430 m. -/
theorem c9_effective_earth_radius :
    eff_earth_radius_m = 1.33 * 6371000 ∧ eff_earth_radius_m = 8473430 := by
  norm_num [eff_earth_radius_m, k_factor, earth_radius_km]

/-- C4: in the knife-edge regime the loss is computed from the worst-clearance
point via `v = −min_clearance·√2/F1` (v = −100 when F1 = 0), then
`L = 6.9 + 20·log10(√((v−0.1)²+1) + v − 0.1)` when `v > −0.7` and `L = 0`
otherwise, and the returned diffraction loss is `max(L, 0)`; an F1 of exactly
0 yields zero loss. -/
theorem c4_knife_edge_loss_formula (lb : LinkBudget) (hd : 0 < lb.dist_km) :
    (f1_at_obstruction lb ≠ 0 →
      v_param lb = -(min_clearance lb) * Real.sqrt 2 / f1_at_obstruction lb)
    ∧ (f1_at_obstruction lb = 0 → v_param lb = -100)
    ∧ (calculate_diffraction_loss lb).1 =
        max (if v_param lb > -0.7 then
              6.9 + 20 * log10 (Real.sqrt ((v_param lb - 0.1) ^ 2 + 1) + v_param lb - 0.1)
            else 0) 0
    ∧ (f1_at_obstruction lb = 0 → (calculate_diffraction_loss lb).1 = 0) := by
  refine ⟨?_, ?_, rfl, ?_⟩
  · intro h
    rw [v_param, if_neg h]
    ring
  · intro h
    rw [v_param, if_pos h]
  · intro h
    have hv : v_param lb = -100 := by rw [v_param, if_pos h]
    show max (loss_db lb) 0 = 0
    have hl : loss_db lb = 0 := by
      rw [loss_db, hv]
      norm_num
    rw [hl]
    exact max_self 0

/-- Witness for C4 at the concrete configuration `cfgA`. -/
theorem c4_witness :
    (0 : ℝ) < cfgA.dist_km ∧
      (calculate_diffraction_loss cfgA).1 =
        max (if v_param cfgA > -0.7 then
              6.9 + 20 * log10 (Real.sqrt ((v_param cfgA - 0.1) ^ 2 + 1) + v_param cfgA - 0.1)
            else 0) 0 :=
  ⟨by norm_num [cfgA], (c4_knife_edge_loss_formula cfgA (by norm_num [cfgA])).2.2.1⟩

/-- C7: the returned modulation label and spectral efficiency follow the
fixed ascending SNR table of §4.7, values exactly at a tier boundary belong
to the higher tier, and throughput is spectral efficiency times bandwidth in
MHz. -/
theorem c7_modulation_table (lb : LinkBudget) :
    (run lb).modulation = SpecModel.modTable ((run lb).snr)
    ∧ (run lb).throughput_mbps = SpecModel.effTable ((run lb).snr) * lb.bandwidth_mhz
    ∧ ∀ s : ℝ,
        (s < 6 → SpecModel.modTable s = "No Link" ∧ SpecModel.effTable s = 0)
        ∧ (6 ≤ s → s < 10 → SpecModel.modTable s = "QPSK 1/2" ∧ SpecModel.effTable s = 1.0)
        ∧ (10 ≤ s → s < 15 → SpecModel.modTable s = "16QAM 1/2" ∧ SpecModel.effTable s = 2.0)
        ∧ (15 ≤ s → s < 20 → SpecModel.modTable s = "16QAM 3/4" ∧ SpecModel.effTable s = 3.0)
        ∧ (20 ≤ s → s < 25 → SpecModel.modTable s = "64QAM 2/3" ∧ SpecModel.effTable s = 4.0)
        ∧ (25 ≤ s → s < 30 → SpecModel.modTable s = "64QAM 3/4" ∧ SpecModel.effTable s = 4.5)
        ∧ (30 ≤ s → SpecModel.modTable s = "256QAM" ∧ SpecModel.effTable s = 6.0) := by
  refine ⟨rfl, rfl, ?_⟩
  intro s
  refine ⟨?_, ?_, ?_, ?_, ?_, ?_, ?_⟩
  · intro h1
    constructor
    · rw [SpecModel.modTable, if_pos h1]
    · rw [SpecModel.effTable, if_pos h1]
  · intro h h2
    have ha : ¬ s < 6 := not_lt.2 h
    constructor
    · rw [SpecModel.modTable, if_neg ha, if_pos h2]
    · rw [SpecModel.effTable, if_neg ha, if_pos h2]
  · intro h h2
    have ha : ¬ s < 6 := not_lt.2 (by linarith)
    have hb : ¬ s < 10 := not_lt.2 h
    constructor
    · rw [SpecModel.modTable, if_neg ha, if_neg hb, if_pos h2]
    · rw [SpecModel.effTable, if_neg ha, if_neg hb, if_pos h2]
  · intro h h2
    have ha : ¬ s < 6 := not_lt.2 (by linarith)
    have hb : ¬ s < 10 := not_lt.2 (by linarith)
    have hc : ¬ s < 15 := not_lt.2 h
    constructor
    · rw [SpecModel.modTable, if_neg ha, if_neg hb, if_neg hc, if_pos h2]
    · rw [SpecModel.effTable, if_neg ha, if_neg hb, if_neg hc, if_pos h2]
  · intro h h2
    have ha : ¬ s < 6 := not_lt.2 (by linarith)
    have hb : ¬ s < 10 := not_lt.2 (by linarith)
    have hc : ¬ s < 15 := not_lt.2 (by linarith)
    have hd : ¬ s < 20 := not_lt.2 h
    constructor
    · rw [SpecModel.modTable, if_neg ha, if_neg hb, if_neg hc, if_neg hd, if_pos h2]
    · rw [SpecModel.effTable, if_neg ha, if_neg hb, if_neg hc, if_neg hd, if_pos h2]
  · intro h h2
    have ha : ¬ s < 6 := not_lt.2 (by linarith)
    have hb : ¬ s < 10 := not_lt.2 (by linarith)
    have hc : ¬ s < 15 := not_lt.2 (by linarith)
    have hd : ¬ s < 20 := not_lt.2 (by linarith)
    have he : ¬ s < 25 := not_lt.2 h
    constructor
    · rw [SpecModel.modTable, if_neg ha, if_neg hb, if_neg hc, if_neg hd, if_neg he, if_pos h2]
    · rw [SpecModel.effTable, if_neg ha, if_neg hb, if_neg hc, if_neg hd, if_neg he, if_pos h2]
  · intro h
    have ha : ¬ s < 6 := not_lt.2 (by linarith)
    have hb : ¬ s < 10 := not_lt.2 (by linarith)
    have hc : ¬ s < 15 := not_lt.2 (by linarith)
    have hd : ¬ s < 20 := not_lt.2 (by linarith)
    have he : ¬ s < 25 := not_lt.2 (by linarith)
    have hfr : ¬ s < 30 := not_lt.2 h
    constructor
    · rw [SpecModel.modTable, if_neg ha, if_neg hb, if_neg hc, if_neg hd, if_neg he, if_neg hfr]
    · rw [SpecModel.effTable, if_neg ha, if_neg hb, if_neg hc, if_neg hd, if_neg he, if_neg hfr]

/-- Witness for C7: the boundary value 6 belongs to the higher tier. -/
theorem c7_witness :
    SpecModel.modTable 6 = "QPSK 1/2" ∧ SpecModel.effTable 6 = 1.0 :=
  ((c7_modulation_table cfgA).2.2 6).2.1 (le_refl 6) (by norm_num)

/-- C10: the returned line-of-sight flag is true exactly when the minimum
clearance over the interior samples is strictly positive; it is determined by
the clearance sign alone. -/
theorem c10_is_los_iff_positive_clearance (lb : LinkBudget) (hd : 0 < lb.dist_km) :
    ((run lb).is_los ↔ 0 < (run lb).min_clearance)
    ∧ ((run lb).is_los ↔ ∀ i, 1 ≤ i → i ≤ 998 → 0 < clearanceAt lb i) := by
  have hspec := worstIdx_spec lb
  refine ⟨Iff.rfl, ?_⟩
  constructor
  · intro h i h1 h2
    exact lt_of_lt_of_le h (hspec.2.1 i h1 h2)
  · intro h
    exact h (worstIdx lb) hspec.1.1 hspec.1.2

/-- Witness for C10 at the concrete configuration `cfgA`. -/
theorem c10_witness :
    (0 : ℝ) < cfgA.dist_km ∧
      ((run cfgA).is_los ↔ 0 < (run cfgA).min_clearance) :=
  ⟨by norm_num [cfgA], (c10_is_los_iff_positive_clearance cfgA (by norm_num [cfgA])).1⟩

/-- C5: the clearance profile is sampled at 1000 evenly spaced points over
`[0, D]` (step `D/999`, endpoints 0 and D); clearance at a sample is the
interpolated ray height minus the Earth-bulge height; and the worst point is
the minimum-clearance sample among the interior samples, ties broken by the
leftmost sample. -/
theorem c5_clearance_sampling_and_worst_point (lb : LinkBudget) (hd : 0 < lb.dist_km) :
    samplePoint lb 0 = 0
    ∧ samplePoint lb 999 = dist_m lb
    ∧ (∀ i : ℕ, samplePoint lb (i + 1) - samplePoint lb i = dist_m lb / 999)
    ∧ (∀ i : ℕ, clearanceAt lb i =
        lb.tx_h_m + (lb.rx_h_m - lb.tx_h_m) * samplePoint lb i / dist_m lb
          - samplePoint lb i * (dist_m lb - samplePoint lb i) / (2 * eff_earth_radius_m))
    ∧ (1 ≤ worstIdx lb ∧ worstIdx lb ≤ 998)
    ∧ (∀ i, 1 ≤ i → i ≤ 998 → clearanceAt lb (worstIdx lb) ≤ clearanceAt lb i)
    ∧ (∀ i, 1 ≤ i → i ≤ 998 →
        clearanceAt lb i = clearanceAt lb (worstIdx lb) → worstIdx lb ≤ i)
    ∧ (calculate_diffraction_loss lb).2.1 = clearanceAt lb (worstIdx lb)
    ∧ (calculate_diffraction_loss lb).2.2.2 = samplePoint lb (worstIdx lb) := by
  have hspec := worstIdx_spec lb
  refine ⟨?_, ?_, ?_, ?_, hspec.1, hspec.2.1, ?_, rfl, rfl⟩
  · simp [samplePoint]
  · rw [samplePoint]
    norm_num
  · intro i
    rw [samplePoint, samplePoint]
    push_cast
    ring
  · intro i
    rw [clearanceAt, h_ray, h_bulge]
    ring
  · intro i h1 h2 heq
    exact hspec.2.2 i h1 h2 (le_of_eq heq)

/-- Witness for C5 at the concrete configuration `cfgA`. -/
theorem c5_witness :
    (0 : ℝ) < cfgA.dist_km ∧
      (1 ≤ worstIdx cfgA ∧ worstIdx cfgA ≤ 998) :=
  ⟨by norm_num [cfgA], (c5_clearance_sampling_and_worst_point cfgA (by norm_num [cfgA])).2.2.2.2.1⟩

/-- C1: the spec-modelled diffraction model selects its regime by comparing
the total path distance D with the total radio horizon H (the sum of
`sqrt(2·Re·h)` over both terminals): when `D > H` it evaluates the smooth
spherical-Earth loss `max(−F(X) − G(Y1) − G(Y2), 0)`, and otherwise
(including D = H) the single knife-edge loss, which coincides with the source
implementation `calculate_diffraction_loss`. -/
theorem c1_regime_selected_by_radio_horizon (lb : LinkBudget) (hd : 0 < lb.dist_km) :
    SpecModel.horizonTotal lb =
        Real.sqrt (2 * eff_earth_radius_m * lb.tx_h_m)
          + Real.sqrt (2 * eff_earth_radius_m * lb.rx_h_m)
    ∧ (SpecModel.horizonTotal lb < dist_m lb →
        SpecModel.diffractionLoss lb =
          max (-(SpecModel.Fterm (SpecModel.Xnorm lb)) - SpecModel.Gterm (SpecModel.Y1 lb)
                - SpecModel.Gterm (SpecModel.Y2 lb)) 0)
    ∧ (dist_m lb ≤ SpecModel.horizonTotal lb →
        SpecModel.diffractionLoss lb = (calculate_diffraction_loss lb).1) := by
  refine ⟨rfl, ?_, ?_⟩
  · intro h
    rw [SpecModel.diffractionLoss, if_pos h]
    rfl
  · intro h
    rw [SpecModel.diffractionLoss, if_neg (not_lt.2 h)]
    exact specKnife_eq lb

/-- Witness for C1 at the concrete configuration `cfgA`. -/
theorem c1_witness :
    (0 : ℝ) < cfgA.dist_km ∧
      SpecModel.horizonTotal cfgA =
        Real.sqrt (2 * eff_earth_radius_m * cfgA.tx_h_m)
          + Real.sqrt (2 * eff_earth_radius_m * cfgA.rx_h_m) :=
  ⟨by norm_num [cfgA], (c1_regime_selected_by_radio_horizon cfgA (by norm_num [cfgA])).1⟩

/-- C2: the spec-modelled engine raises a `ConfigurationError` identifying
the offending field whenever distance ≤ 0, frequency ≤ 0, bandwidth ≤ 0 or a
height is negative, producing no result; and produces the complete result
exactly when all four constraints hold. -/
theorem c2_validation_before_computation (lb : LinkBudget) :
    (lb.dist_km ≤ 0 →
      SpecModel.specRun lb = .error .nonpositiveDistance)
    ∧ (0 < lb.dist_km → lb.freq_mhz ≤ 0 →
      SpecModel.specRun lb = .error .nonpositiveFrequency)
    ∧ (0 < lb.dist_km → 0 < lb.freq_mhz → lb.bandwidth_mhz ≤ 0 →
      SpecModel.specRun lb = .error .nonpositiveBandwidth)
    ∧ (0 < lb.dist_km → 0 < lb.freq_mhz → 0 < lb.bandwidth_mhz → lb.tx_h_m < 0 →
      SpecModel.specRun lb = .error .negativeTxHeight)
    ∧ (0 < lb.dist_km → 0 < lb.freq_mhz → 0 < lb.bandwidth_mhz → 0 ≤ lb.tx_h_m →
        lb.rx_h_m < 0 →
      SpecModel.specRun lb = .error .negativeRxHeight)
    ∧ ((∃ r, SpecModel.specRun lb = .ok r) ↔
        (0 < lb.dist_km ∧ 0 < lb.freq_mhz ∧ 0 < lb.bandwidth_mhz
          ∧ 0 ≤ lb.tx_h_m ∧ 0 ≤ lb.rx_h_m))
    ∧ (0 < lb.dist_km → 0 < lb.freq_mhz → 0 < lb.bandwidth_mhz → 0 ≤ lb.tx_h_m →
        0 ≤ lb.rx_h_m →
      SpecModel.specRun lb = .ok (SpecModel.compute lb)) := by
  refine ⟨?_, ?_, ?_, ?_, ?_, ⟨?_, ?_⟩, ?_⟩
  · intro h1
    rw [SpecModel.specRun, if_pos h1]
  · intro h1 h2
    rw [SpecModel.specRun, if_neg (not_le.2 h1), if_pos h2]
  · intro h1 h2 h3
    rw [SpecModel.specRun, if_neg (not_le.2 h1), if_neg (not_le.2 h2), if_pos h3]
  · intro h1 h2 h3 h4
    rw [SpecModel.specRun, if_neg (not_le.2 h1), if_neg (not_le.2 h2),
      if_neg (not_le.2 h3), if_pos h4]
  · intro h1 h2 h3 h4 h5
    rw [SpecModel.specRun, if_neg (not_le.2 h1), if_neg (not_le.2 h2),
      if_neg (not_le.2 h3), if_neg (not_lt.2 h4), if_pos h5]
  · rintro ⟨r, hr⟩
    rw [SpecModel.specRun] at hr
    split_ifs at hr with h1 h2 h3 h4 h5
    push_neg at h1 h2 h3 h4 h5
    exact ⟨h1, h2, h3, h4, h5⟩
  · rintro ⟨h1, h2, h3, h4, h5⟩
    exact ⟨SpecModel.compute lb,
      by rw [SpecModel.specRun, if_neg (not_le.2 h1), if_neg (not_le.2 h2),
        if_neg (not_le.2 h3), if_neg (not_lt.2 h4), if_neg (not_lt.2 h5)]⟩
  · intro h1 h2 h3 h4 h5
    rw [SpecModel.specRun, if_neg (not_le.2 h1), if_neg (not_le.2 h2),
      if_neg (not_le.2 h3), if_neg (not_lt.2 h4), if_neg (not_lt.2 h5)]

/-- Witness for C2: a non-positive distance is rejected, and the valid
configuration `cfgA` produces the complete result. -/
theorem c2_witness :
    SpecModel.specRun cfgBad = .error .nonpositiveDistance
    ∧ SpecModel.specRun cfgA = .ok (SpecModel.compute cfgA) :=
  ⟨(c2_validation_before_computation cfgBad).1 (by norm_num [cfgBad, cfgA]),
    (c2_validation_before_computation cfgA).2.2.2.2.2.2 (by norm_num [cfgA])
      (by norm_num [cfgA]) (by norm_num [cfgA]) (by norm_num [cfgA]) (by norm_num [cfgA])⟩

/-- C3: for every valid configuration the spec-modelled result carries the
radio-horizon total distance (in km, i.e. the metre sum divided by 1000),
equal to `sqrt(2·Re·h_tx) + sqrt(2·Re·h_rx)`, and a terminal height of 0
contributes a horizon of 0 without raising an error. -/
theorem c3_result_contains_radio_horizon (lb : LinkBudget)
    (h1 : 0 < lb.dist_km) (h2 : 0 < lb.freq_mhz) (h3 : 0 < lb.bandwidth_mhz)
    (h4 : 0 ≤ lb.tx_h_m) (h5 : 0 ≤ lb.rx_h_m) :
    ∃ r : SpecModel.SpecResult, SpecModel.specRun lb = .ok r
      ∧ r.d_horizon_km * 1000 =
          Real.sqrt (2 * eff_earth_radius_m * lb.tx_h_m)
            + Real.sqrt (2 * eff_earth_radius_m * lb.rx_h_m)
      ∧ (lb.tx_h_m = 0 → Real.sqrt (2 * eff_earth_radius_m * lb.tx_h_m) = 0)
      ∧ (lb.rx_h_m = 0 → Real.sqrt (2 * eff_earth_radius_m * lb.rx_h_m) = 0) := by
  refine ⟨SpecModel.compute lb, ?_, ?_, ?_, ?_⟩
  · rw [SpecModel.specRun, if_neg (not_le.2 h1), if_neg (not_le.2 h2),
      if_neg (not_le.2 h3), if_neg (not_lt.2 h4), if_neg (not_lt.2 h5)]
  · show SpecModel.horizonTotal lb / 1000 * 1000 = _
    rw [div_mul_cancel₀ _ (by norm_num : (1000:ℝ) ≠ 0)]
    rfl
  · intro h
    rw [h, mul_zero, Real.sqrt_zero]
  · intro h
    rw [h, mul_zero, Real.sqrt_zero]

/-- Witness for C3 at `cfgZ`, whose transmitter is at ground level. -/
theorem c3_witness :
    ∃ r : SpecModel.SpecResult, SpecModel.specRun cfgZ = .ok r
      ∧ r.d_horizon_km * 1000 =
          Real.sqrt (2 * eff_earth_radius_m * cfgZ.tx_h_m)
            + Real.sqrt (2 * eff_earth_radius_m * cfgZ.rx_h_m)
      ∧ (cfgZ.tx_h_m = 0 → Real.sqrt (2 * eff_earth_radius_m * cfgZ.tx_h_m) = 0)
      ∧ (cfgZ.rx_h_m = 0 → Real.sqrt (2 * eff_earth_radius_m * cfgZ.rx_h_m) = 0) :=
  c3_result_contains_radio_horizon cfgZ (by norm_num [cfgZ, cfgA])
    (by norm_num [cfgZ, cfgA]) (by norm_num [cfgZ, cfgA])
    (by norm_num [cfgZ, cfgA]) (by norm_num [cfgZ, cfgA])

/-! ### C8: concrete evaluation of the diffraction loss at `cfgC8` -/

lemma samplePoint_bounds (lb : LinkBudget) (hD : 0 < dist_m lb) {i : ℕ}
    (h1 : 1 ≤ i) (h2 : i ≤ 998) :
    0 < samplePoint lb i ∧ samplePoint lb i < dist_m lb := by
  have hi1 : (1 : ℝ) ≤ (i : ℝ) := by exact_mod_cast h1
  have hi2 : (i : ℝ) ≤ 998 := by exact_mod_cast h2
  constructor
  · rw [samplePoint]
    exact div_pos (mul_pos hD (by linarith)) (by norm_num)
  · rw [samplePoint, div_lt_iff (by norm_num : (0:ℝ) < 999)]
    nlinarith

set_option maxRecDepth 4000 in
lemma cfgC8_dl_eq_zero : (calculate_diffraction_loss cfgC8).1 = 0 := by
  have hD : dist_m cfgC8 = 1000 := by norm_num [dist_m, cfgC8]
  have hR : eff_earth_radius_m = 8473430 := by
    norm_num [eff_earth_radius_m, k_factor, earth_radius_km]
  have hlam : wavelength cfgC8 = 0.125 := by
    norm_num [wavelength, freq_hz, c_light, cfgC8]
  have hjb := (worstIdx_spec cfgC8).1
  have hdb : 0 < samplePoint cfgC8 (worstIdx cfgC8)
      ∧ samplePoint cfgC8 (worstIdx cfgC8) < dist_m cfgC8 :=
    samplePoint_bounds cfgC8 (by rw [hD]; norm_num) hjb.1 hjb.2
  have hd1 : 0 < d_obstruction cfgC8 := hdb.1
  have hd2 : d_obstruction cfgC8 < 1000 := by
    have := hdb.2
    rw [hD] at this
    exact this
  have hcond : ¬ (d_obstruction cfgC8 ≤ 0 ∨ d_obstruction cfgC8 ≥ dist_m cfgC8) := by
    push_neg
    exact ⟨hd1, by rw [hD]; exact hd2⟩
  have hf1eq : f1_at_obstruction cfgC8 =
      Real.sqrt ((0.125 * d_obstruction cfgC8 * (1000 - d_obstruction cfgC8))
        / (d_obstruction cfgC8 + (1000 - d_obstruction cfgC8))) := by
    rw [f1_at_obstruction, calculate_fresnel_radius, if_neg hcond, hlam, hD]
  have hsum : d_obstruction cfgC8 + (1000 - d_obstruction cfgC8) = (1000 : ℝ) := by ring
  have harg_pos : 0 < (0.125 * d_obstruction cfgC8 * (1000 - d_obstruction cfgC8))
      / (d_obstruction cfgC8 + (1000 - d_obstruction cfgC8)) := by
    rw [hsum]
    refine div_pos ?_ (by norm_num)
    nlinarith
  have harg_le : (0.125 * d_obstruction cfgC8 * (1000 - d_obstruction cfgC8))
      / (d_obstruction cfgC8 + (1000 - d_obstruction cfgC8)) ≤ 31.25 := by
    rw [hsum, div_le_iff (by norm_num : (0:ℝ) < 1000)]
    nlinarith [sq_nonneg (d_obstruction cfgC8 - 500)]
  have hf1_pos : 0 < f1_at_obstruction cfgC8 := by
    rw [hf1eq]
    exact Real.sqrt_pos.2 harg_pos
  have hf1_lt : f1_at_obstruction cfgC8 < 6 := by
    rw [hf1eq]
    exact (Real.sqrt_lt' (by norm_num : (0:ℝ) < 6)).2 (by linarith)
  have hray : h_ray cfgC8 (d_obstruction cfgC8) = 1000000 := by
    rw [h_ray]
    norm_num [cfgC8]
  have hb1 : 0 ≤ h_bulge cfgC8 (d_obstruction cfgC8) := by
    rw [h_bulge, hD, hR]
    exact div_nonneg (by nlinarith) (by norm_num)
  have hb2 : h_bulge cfgC8 (d_obstruction cfgC8) ≤ 1 := by
    rw [h_bulge, hD, hR, div_le_iff (by norm_num : (0:ℝ) < 2 * 8473430)]
    nlinarith [sq_nonneg (d_obstruction cfgC8 - 500)]
  have hmc_eq : min_clearance cfgC8 =
      h_ray cfgC8 (d_obstruction cfgC8) - h_bulge cfgC8 (d_obstruction cfgC8) := rfl
  have hmc : (999999 : ℝ) ≤ min_clearance cfgC8 := by
    rw [hmc_eq, hray]
    linarith
  have hsqrt2 : (1 : ℝ) ≤ Real.sqrt 2 := (Real.le_sqrt' one_pos).2 (by norm_num)
  have hv : v_param cfgC8 =
      -1 * min_clearance cfgC8 * Real.sqrt 2 / f1_at_obstruction cfgC8 := by
    rw [v_param, if_neg (ne_of_gt hf1_pos)]
  have h999 : (999999 : ℝ) ≤ min_clearance cfgC8 * Real.sqrt 2 := by
    nlinarith
  have hvle : v_param cfgC8 ≤ -0.7 := by
    rw [hv, div_le_iff hf1_pos]
    nlinarith
  have hloss : loss_db cfgC8 = 0 := by
    rw [loss_db, if_neg (not_lt.2 hvle)]
  show max (loss_db cfgC8) 0 = 0
  rw [hloss]
  exact max_self 0

/-- C8 counterexample: `cfgC8` is a valid configuration (positive distance,
frequency and bandwidth, non-negative heights) whose fade margin is −1 dB,
and its total path loss is strictly below its free-space path loss, refuting
the claim that total loss ≥ FSPL for every valid configuration with the
dB-valued fields unconstrained. -/
theorem c8_counterexample :
    (0 < cfgC8.dist_km ∧ 0 < cfgC8.freq_mhz ∧ 0 < cfgC8.bandwidth_mhz
      ∧ 0 ≤ cfgC8.tx_h_m ∧ 0 ≤ cfgC8.rx_h_m)
    ∧ (run cfgC8).total_loss < (run cfgC8).fspl := by
  refine ⟨by norm_num [cfgC8], ?_⟩
  show total_loss cfgC8 < calculate_fspl cfgC8
  rw [total_loss, cfgC8_dl_eq_zero,
    show cfgC8.tx_l_db = 0 from rfl, show cfgC8.rx_l_db = 0 from rfl,
    show cfgC8.impl_loss_db = 0 from rfl, show cfgC8.fade_margin_db = -1 from rfl]
  linarith

/-- C8 (amended): the returned diffraction loss is ≥ 0 for every
configuration, and whenever the cable losses, implementation loss and fade
margin sum to a non-negative value, the total path loss is at least the
free-space path loss. -/
theorem c8_total_loss_bound (lb : LinkBudget) :
    0 ≤ (run lb).diffraction_loss
    ∧ (0 ≤ lb.tx_l_db + lb.rx_l_db + lb.impl_loss_db + lb.fade_margin_db →
        (run lb).fspl ≤ (run lb).total_loss) := by
  have h0 : (0 : ℝ) ≤ max (loss_db lb) 0 := le_max_right _ _
  refine ⟨h0, ?_⟩
  intro hadj
  show calculate_fspl lb ≤ total_loss lb
  rw [total_loss]
  have h1 : (calculate_diffraction_loss lb).1 = max (loss_db lb) 0 := rfl
  rw [h1]
  linarith

/-- Witness for C8 (amended): at the concrete configuration `cfgA` both the
unconditional bound and the conditional bound (its hypothesis discharged)
hold. -/
theorem c8_witness :
    0 ≤ (run cfgA).diffraction_loss
    ∧ (0 : ℝ) ≤ cfgA.tx_l_db + cfgA.rx_l_db + cfgA.impl_loss_db + cfgA.fade_margin_db
    ∧ (run cfgA).fspl ≤ (run cfgA).total_loss :=
  ⟨(c8_total_loss_bound cfgA).1, by norm_num [cfgA],
    (c8_total_loss_bound cfgA).2 (by norm_num [cfgA])⟩

end
